import Mathlib

/-!
Shallow embedding of `lord-drawquaad` (`src/lib.rs`): a minimal library that
draws one full-screen textured quad in OpenGL.  The library issues a fixed
sequence of GL calls in `Context::new`, `Context::draw` and `Drop for Context`;
we model each GL call as a constructor of `GLCmd` and each function as the list
of commands it issues, in order.  Quantities that the GL driver returns
(shader ids, program id, attribute/uniform locations, generated buffer names)
are supplied by a `GLEnv` record, since the code uses them but does not choose
them.  Vertex coordinates are `-1.0`, `0.0`, `1.0`: exactly representable, so
we model `f32` fields as `ℚ`.
-/

namespace gl

/-- `gl::VERTEX_SHADER` (OpenGL enum `0x8B31`). -/
def VERTEX_SHADER : Nat := 0x8B31

/-- `gl::FRAGMENT_SHADER` (OpenGL enum `0x8B30`). -/
def FRAGMENT_SHADER : Nat := 0x8B30

/-- `gl::ARRAY_BUFFER` (OpenGL enum `0x8892`). -/
def ARRAY_BUFFER : Nat := 0x8892

/-- `gl::STATIC_DRAW` (OpenGL enum `0x88E4`). -/
def STATIC_DRAW : Nat := 0x88E4

/-- `gl::FLOAT` (OpenGL enum `0x1406`). -/
def FLOAT : Nat := 0x1406

/-- `gl::TEXTURE0` (OpenGL enum `0x84C0`), the first texture unit. -/
def TEXTURE0 : Nat := 0x84C0

/-- `gl::TEXTURE_RECTANGLE` (OpenGL enum `0x84F5`). -/
def TEXTURE_RECTANGLE : Nat := 0x84F5

/-- `gl::TEXTURE_2D` (OpenGL enum `0x0DE1`). -/
def TEXTURE_2D : Nat := 0x0DE1

/-- `gl::TRIANGLE_STRIP` (OpenGL enum `0x0005`). -/
def TRIANGLE_STRIP : Nat := 0x0005

/-- `gl::COMPILE_STATUS` (OpenGL enum `0x8B81`), the pname a compile-status
query would pass to `glGetShaderiv`. -/
def COMPILE_STATUS : Nat := 0x8B81

/-- `gl::LINK_STATUS` (OpenGL enum `0x8B82`), the pname a link-status query
would pass to `glGetProgramiv`. -/
def LINK_STATUS : Nat := 0x8B82

/-- The index of a texture unit enum: `TEXTURE0` is unit 0, `TEXTURE0 + i`
is unit i. -/
def unitIndex (unit : Nat) : Nat := unit - TEXTURE0

end gl

/-- `struct Vertex { x: f32, y: f32, u: f32, v: f32 }` from `src/lib.rs`. -/
structure Vertex where
  x : ℚ
  y : ℚ
  u : ℚ
  v : ℚ
deriving DecidableEq, Repr

/-- `mem::size_of::<f32>()` in bytes. -/
def sizeOfF32 : Nat := 4

/-- `mem::size_of::<Vertex>()` in bytes: four `f32` fields, `#[repr(C)]`. -/
def sizeOfVertex : Nat := 4 * sizeOfF32

/-- `static VERTICES: [Vertex; 4]` from `src/lib.rs`, in source order. -/
def VERTICES : List Vertex :=
  [ ⟨-1,  1, 0, 0⟩,
    ⟨ 1,  1, 1, 0⟩,
    ⟨-1, -1, 0, 1⟩,
    ⟨ 1, -1, 1, 1⟩ ]

/-- `static VERTEX_SHADER` from `src/lib.rs` (GLSL source text, verbatim). -/
def VERTEX_SHADER : String :=
  "\n#version 330\n\nin vec2 aPosition;\nin vec2 aTexCoord;\n\nout vec2 vTexCoord;\n\nvoid main() \x7b\n    vTexCoord = aTexCoord;\n    gl_Position = vec4(aPosition, 0.0, 1.0);\n\x7d\n"

/-- `static FRAGMENT_SHADER` from `src/lib.rs` (GLSL source text, verbatim). -/
def FRAGMENT_SHADER : String :=
  "\n#version 330\n\nuniform sampler2DRect uTexture;\n\nin vec2 vTexCoord;\n\nout vec4 oFragColor;\n\nvoid main() \x7b\n    ivec2 size = textureSize(uTexture);\n    oFragColor = texture(uTexture, vTexCoord * vec2(float(size.x), float(size.y)));\n\x7d\n"

/-- `pub struct Context` from `src/lib.rs`: the six stored GL handles.
`GLuint` handles are `Nat`; the uniform location is `GLint`, hence `Int`. -/
structure Context where
  vertex_shader : Nat
  fragment_shader : Nat
  program : Nat
  texture_uniform : Int
  vertex_array : Nat
  vertex_buffer : Nat
deriving DecidableEq, Repr

/-- Rust's `as GLuint` cast of a `GLint`: two's-complement wrap into 32 bits. -/
def toGLuint (i : Int) : Nat := (i % 2 ^ 32).toNat

/-- One GL API call as issued by the library, with its arguments; calls whose
result the code consumes carry that result as a final field.  The status-query
calls `getShaderiv`/`getProgramiv` are included so that their absence from a
trace is expressible. -/
inductive GLCmd where
  | createShader (kind result : Nat)
  | shaderSource (shader count : Nat) (src : String) (len : Nat)
  | compileShader (shader : Nat)
  | getShaderiv (shader pname : Nat)
  | createProgram (result : Nat)
  | attachShader (program shader : Nat)
  | linkProgram (program : Nat)
  | getProgramiv (program pname : Nat)
  | useProgram (program : Nat)
  | getAttribLocation (program : Nat) (name : String) (result : Int)
  | getUniformLocation (program : Nat) (name : String) (result : Int)
  | genVertexArrays (n result : Nat)
  | bindVertexArray (va : Nat)
  | genBuffers (n result : Nat)
  | bindBuffer (target buffer : Nat)
  | bufferData (target size : Nat) (data : List Vertex) (usage : Nat)
  | vertexAttribPointer (index size typ : Nat) (normalized : Bool) (stride offset : Nat)
  | enableVertexAttribArray (index : Nat)
  | activeTexture (unit : Nat)
  | bindTexture (target tex : Nat)
  | uniform1i (location value : Int)
  | drawArrays (mode : Nat) (first count : Nat)
  | deleteBuffers (n buffer : Nat)
  | deleteVertexArrays (n va : Nat)
  | deleteProgram (program : Nat)
  | deleteShader (shader : Nat)
deriving DecidableEq, Repr

/-- The values the GL driver hands back during `Context::new`: object names
from the `Create`/`Gen` calls and locations from the `Get*Location` calls.
The code reads these; it does not choose them. -/
structure GLEnv where
  vertexShaderId : Nat
  fragmentShaderId : Nat
  programId : Nat
  positionAttribute : Int
  texCoordAttribute : Int
  textureUniformLoc : Int
  vertexArrayId : Nat
  vertexBufferId : Nat
deriving DecidableEq, Repr

namespace Context

/-- `Context::new` from `src/lib.rs`: the context it returns and the exact
ordered list of GL calls it issues, given the driver-returned values. -/
def new (env : GLEnv) : Context × List GLCmd :=
  let vertex_shader := env.vertexShaderId
  let fragment_shader := env.fragmentShaderId
  let program := env.programId
  let position_attribute := env.positionAttribute
  let tex_coord_attribute := env.texCoordAttribute
  let texture_uniform := env.textureUniformLoc
  let vertex_array := env.vertexArrayId
  let vertex_buffer := env.vertexBufferId
  (⟨vertex_shader, fragment_shader, program, texture_uniform, vertex_array,
    vertex_buffer⟩,
   [ .createShader gl.VERTEX_SHADER vertex_shader,
     .createShader gl.FRAGMENT_SHADER fragment_shader,
     .shaderSource vertex_shader 1 VERTEX_SHADER VERTEX_SHADER.length,
     .shaderSource fragment_shader 1 FRAGMENT_SHADER FRAGMENT_SHADER.length,
     .compileShader vertex_shader,
     .compileShader fragment_shader,
     .createProgram program,
     .attachShader program vertex_shader,
     .attachShader program fragment_shader,
     .linkProgram program,
     .useProgram program,
     .getAttribLocation program "aPosition" position_attribute,
     .getAttribLocation program "aTexCoord" tex_coord_attribute,
     .getUniformLocation program "uTexture" texture_uniform,
     .genVertexArrays 1 vertex_array,
     .bindVertexArray vertex_array,
     .genBuffers 1 vertex_buffer,
     .bindBuffer gl.ARRAY_BUFFER vertex_buffer,
     .bufferData gl.ARRAY_BUFFER (sizeOfVertex * 4) VERTICES gl.STATIC_DRAW,
     .vertexAttribPointer (toGLuint position_attribute) 2 gl.FLOAT false
       sizeOfVertex (sizeOfF32 * 0),
     .vertexAttribPointer (toGLuint tex_coord_attribute) 2 gl.FLOAT false
       sizeOfVertex (sizeOfF32 * 2),
     .enableVertexAttribArray (toGLuint position_attribute),
     .enableVertexAttribArray (toGLuint tex_coord_attribute) ])

/-- `Context::draw` from `src/lib.rs`: the exact ordered list of GL calls one
`draw(texture)` call issues.  The Rust function returns `()`; here the trace
is the whole observable behavior. -/
def draw (ctx : Context) (texture : Nat) : List GLCmd :=
  [ .useProgram ctx.program,
    .bindVertexArray ctx.vertex_array,
    .bindBuffer gl.ARRAY_BUFFER ctx.vertex_buffer,
    .activeTexture gl.TEXTURE0,
    .bindTexture gl.TEXTURE_RECTANGLE texture,
    .uniform1i ctx.texture_uniform 0,
    .drawArrays gl.TRIANGLE_STRIP 0 4 ]

/-- `impl Drop for Context` from `src/lib.rs`: the exact ordered list of GL
calls destruction issues. -/
def drop (ctx : Context) : List GLCmd :=
  [ .deleteBuffers 1 ctx.vertex_buffer,
    .deleteVertexArrays 1 ctx.vertex_array,
    .deleteProgram ctx.program,
    .deleteShader ctx.fragment_shader,
    .deleteShader ctx.vertex_shader ]

end Context

/-! ### Clip-space geometry of the quad

The vertex shader passes `aPosition` through unchanged into `gl_Position`, so
the rasterized geometry is the triangle strip over the `(x, y)` fields of
`VERTICES` in clip space.  A point is in a triangle iff it is a convex
combination of the three corners. -/

/-- A 2D point (clip-space coordinates). -/
abbrev Point : Type := ℚ × ℚ

/-- The clip-space position of a vertex record. -/
def vertexPos (v : Vertex) : Point := (v.x, v.y)

/-- The texture coordinate of a vertex record. -/
def vertexUV (v : Vertex) : Point := (v.u, v.v)

/-- Triangle-strip decoding (glossary §Triangle strip): vertices
`1,2,3` form one triangle, `2,3,4` the next, sharing an edge. -/
def stripTriangles {α : Type} : List α → List (α × α × α)
  | a :: b :: c :: rest => (a, b, c) :: stripTriangles (b :: c :: rest)
  | _ => []

/-- Membership of `p` in the (closed) triangle with corners `a`, `b`, `c`:
`p` is a convex combination of the corners. -/
def inTriangle (a b c p : Point) : Prop :=
  ∃ s t w : ℚ, 0 ≤ s ∧ 0 ≤ t ∧ 0 ≤ w ∧ s + t + w = 1 ∧
    p.1 = s * a.1 + t * b.1 + w * c.1 ∧
    p.2 = s * a.2 + t * b.2 + w * c.2

/-- The closed clip rectangle `[-1,1] × [-1,1]`. -/
def inClipSquare (p : Point) : Prop :=
  -1 ≤ p.1 ∧ p.1 ≤ 1 ∧ -1 ≤ p.2 ∧ p.2 ≤ 1

/-- The interior of the triangle with corners `a`, `b`, `c`: a convex
combination with all three weights positive. -/
def inTriangleInterior (a b c p : Point) : Prop :=
  ∃ s t w : ℚ, 0 < s ∧ 0 < t ∧ 0 < w ∧ s + t + w = 1 ∧
    p.1 = s * a.1 + t * b.1 + w * c.1 ∧
    p.2 = s * a.2 + t * b.2 + w * c.2

/-! ### GL binding state

`draw` mutates global-to-the-context GL binding state.  We model the slice of
GL state the seven commands of `draw` can touch, and how each command updates
it.  Texture bindings are per texture unit and per target; uniform values are
per program and location. -/

/-- The ambient GL binding state that `Context::draw`'s commands read or
write.  `textureBinding unit target` is the texture bound to `target` on
texture unit `unit`; `uniformValue prog loc` is the integer uniform at
location `loc` of program `prog`. -/
structure GLState where
  currentProgram : Nat
  boundVertexArray : Nat
  boundArrayBuffer : Nat
  activeTextureUnit : Nat
  textureBinding : Nat → Nat → Nat
  uniformValue : Nat → Int → Int

/-- Effect of one GL command on binding state.  `uniform1i` writes the uniform
of the *current* program; `bindTexture` binds on the *active* texture unit;
commands that do not touch binding state leave it unchanged. -/
def applyCmd (s : GLState) : GLCmd → GLState
  | .useProgram p => { s with currentProgram := p }
  | .bindVertexArray va => { s with boundVertexArray := va }
  | .bindBuffer target buffer =>
      if target = gl.ARRAY_BUFFER then { s with boundArrayBuffer := buffer } else s
  | .activeTexture unit => { s with activeTextureUnit := unit }
  | .bindTexture target tex =>
      { s with textureBinding := fun u tgt =>
          if u = s.activeTextureUnit ∧ tgt = target then tex
          else s.textureBinding u tgt }
  | .uniform1i loc value =>
      { s with uniformValue := fun p l =>
          if p = s.currentProgram ∧ l = loc then value
          else s.uniformValue p l }
  | _ => s

/-- Running a command trace from a starting state. -/
def applyTrace (s : GLState) (cmds : List GLCmd) : GLState :=
  cmds.foldl applyCmd s

/-- The projection of GL state that `draw` depends on for rendering with
context `ctx`: current program, bound vertex array, bound array buffer,
active unit, the rectangle texture bound on unit `TEXTURE0`, and the sampler
uniform of `ctx.program`. -/
def drawRelevantState (ctx : Context) (s : GLState) :
    Nat × Nat × Nat × Nat × Nat × Int :=
  (s.currentProgram, s.boundVertexArray, s.boundArrayBuffer,
   s.activeTextureUnit, s.textureBinding gl.TEXTURE0 gl.TEXTURE_RECTANGLE,
   s.uniformValue ctx.program ctx.texture_uniform)

/-! ### Fragment shader semantics

The embedded fragment shader (`FRAGMENT_SHADER`) reads, per fragment, the
interpolated `vTexCoord`, queries the bound rectangle texture's integer size,
and samples at the coordinate scaled componentwise by that size. -/

/-- A rectangle texture as the fragment stage sees it: integer pixel
dimensions (`textureSize`) and a sampling function over unnormalized
coordinates (`texture(uTexture, ·)` on a `sampler2DRect`).  A texel is a
`vec4` color. -/
structure RectTexture where
  width : ℕ
  height : ℕ
  sample : ℚ → ℚ → ℚ × ℚ × ℚ × ℚ

/-- `main` of `FRAGMENT_SHADER`:
`ivec2 size = textureSize(uTexture);`
`oFragColor = texture(uTexture, vTexCoord * vec2(float(size.x), float(size.y)));`
The returned color is the fragment output `oFragColor`. -/
def fragmentMain (uTexture : RectTexture) (vTexCoord : ℚ × ℚ) : ℚ × ℚ × ℚ × ℚ :=
  let size : ℕ × ℕ := (uTexture.width, uTexture.height)
  uTexture.sample (vTexCoord.1 * (size.1 : ℚ)) (vTexCoord.2 * (size.2 : ℚ))

/-- `main` of `VERTEX_SHADER`: passes the texture coordinate through and
lifts the 2D position into clip space with `z = 0`, `w = 1`; the result is
(`gl_Position`, `vTexCoord`). -/
def vertexMain (aPosition aTexCoord : ℚ × ℚ) : (ℚ × ℚ × ℚ × ℚ) × (ℚ × ℚ) :=
  ((aPosition.1, aPosition.2, 0, 1), aTexCoord)

/-! ### Helpers for string containment and trace predicates -/

/-- `headMatches pat l`: the character list `l` starts with `pat`. -/
def headMatches : List Char → List Char → Bool
  | [], _ => true
  | _ :: _, [] => false
  | a :: as, b :: bs => a == b && headMatches as bs

/-- `containsSeq pat l`: `pat` occurs as a contiguous run inside `l`. -/
def containsSeq (pat : List Char) : List Char → Bool
  | [] => headMatches pat []
  | l@(_ :: rest) => headMatches pat l || containsSeq pat rest

/-- A GLSL source string declares a `sampler2DRect` sampler iff that token
occurs in its text. -/
def declaresRectSampler (src : String) : Bool :=
  containsSeq "sampler2DRect".data src.data

/-- Whether a command writes GPU buffer contents. -/
def writesBufferData : GLCmd → Bool
  | .bufferData _ _ _ _ => true
  | _ => false

/-- Whether a command is a shader-compile or program-link status query. -/
def isStatusCheck : GLCmd → Bool
  | .getShaderiv _ _ => true
  | .getProgramiv _ _ => true
  | _ => false

/-- Whether a command is a draw invocation. -/
def isDrawCall : GLCmd → Bool
  | .drawArrays _ _ _ => true
  | _ => false

/-- Whether a command binds a texture under the `TEXTURE_2D` target. -/
def bindsTexture2D : GLCmd → Bool
  | .bindTexture target _ => target == gl.TEXTURE_2D
  | _ => false

/-- Whether a command deletes a GPU object. -/
def isDeleteCmd : GLCmd → Bool
  | .deleteBuffers _ _ => true
  | .deleteVertexArrays _ _ => true
  | .deleteProgram _ => true
  | .deleteShader _ => true
  | _ => false

/-! ### Helper lemmas -/

/-- The first strip triangle `(-1,1),(1,1),(-1,-1)` is the closed upper-left
half of the clip square: `-1 ≤ x`, `y ≤ 1`, `x ≤ y`. -/
theorem triangle1_mem_iff (p : Point) :
    inTriangle (-1, 1) (1, 1) (-1, -1) p ↔ (-1 ≤ p.1 ∧ p.2 ≤ 1 ∧ p.1 ≤ p.2) := by
  constructor
  · rintro ⟨s, t, w, hs, ht, hw, hsum, hx, hy⟩
    simp only at hx hy
    exact ⟨by linarith, by linarith, by linarith⟩
  · rintro ⟨h1, h2, h3⟩
    exact ⟨(p.2 - p.1) / 2, (p.1 + 1) / 2, (1 - p.2) / 2, by linarith, by linarith,
      by linarith, by ring, by simp; ring, by simp; ring⟩

/-- The second strip triangle `(1,1),(-1,-1),(1,-1)` is the closed lower-right
half of the clip square: `x ≤ 1`, `-1 ≤ y`, `y ≤ x`. -/
theorem triangle2_mem_iff (p : Point) :
    inTriangle (1, 1) (-1, -1) (1, -1) p ↔ (p.1 ≤ 1 ∧ -1 ≤ p.2 ∧ p.2 ≤ p.1) := by
  constructor
  · rintro ⟨s, t, w, hs, ht, hw, hsum, hx, hy⟩
    simp only at hx hy
    exact ⟨by linarith, by linarith, by linarith⟩
  · rintro ⟨h1, h2, h3⟩
    exact ⟨(1 + p.2) / 2, (1 - p.1) / 2, (p.1 - p.2) / 2, by linarith, by linarith,
      by linarith, by ring, by simp; ring, by simp; ring⟩

/-! ### Claims -/

/-- C1: the four stored vertices are exactly the corners
`(-1,1),(1,1),(-1,-1),(1,-1)` in that order with texture coordinates
`(0,0),(1,0),(0,1),(1,1)`; decoding the sequence as a triangle strip yields
the two triangles sharing the diagonal, every point of the clip square
`[-1,1]²` lies in one of them (no gaps), membership in either implies being
in the square, and the two triangles meet exactly in the shared diagonal
segment (no overlap). -/
theorem claim_C1 :
    VERTICES.map vertexPos = [(-1, 1), (1, 1), (-1, -1), (1, -1)] ∧
    VERTICES.map vertexUV = [(0, 0), (1, 0), (0, 1), (1, 1)] ∧
    stripTriangles (VERTICES.map vertexPos) =
      [((-1, 1), (1, 1), (-1, -1)), ((1, 1), (-1, -1), (1, -1))] ∧
    (∀ p : Point, inClipSquare p ↔
      (inTriangle (-1, 1) (1, 1) (-1, -1) p ∨ inTriangle (1, 1) (-1, -1) (1, -1) p)) ∧
    (∀ p : Point, inTriangle (-1, 1) (1, 1) (-1, -1) p →
      inTriangle (1, 1) (-1, -1) (1, -1) p → p.1 = p.2 ∧ -1 ≤ p.1 ∧ p.1 ≤ 1) := by
  refine ⟨by decide, by decide, by decide, ?_, ?_⟩
  · intro p
    rw [triangle1_mem_iff, triangle2_mem_iff]
    unfold inClipSquare
    constructor
    · rintro ⟨h1, h2, h3, h4⟩
      rcases le_total p.1 p.2 with h | h
      · exact Or.inl ⟨h1, h4, h⟩
      · exact Or.inr ⟨h2, h3, h⟩
    · rintro (⟨h1, h2, h3⟩ | ⟨h1, h2, h3⟩)
      · exact ⟨h1, by linarith, by linarith, h2⟩
      · exact ⟨by linarith, h1, h2, by linarith⟩
  · intro p h1 h2
    rw [triangle1_mem_iff] at h1
    rw [triangle2_mem_iff] at h2
    exact ⟨le_antisymm h1.2.2 h2.2.2, h1.1, h2.1⟩

/-- Witness for C1: the center `(0,0)` lies in both strip triangles, and the
no-overlap conjunct places it on the shared diagonal. -/
theorem claim_C1_witness :
    ((0 : ℚ), (0 : ℚ)).1 = ((0 : ℚ), (0 : ℚ)).2 ∧
    -1 ≤ ((0 : ℚ), (0 : ℚ)).1 ∧ ((0 : ℚ), (0 : ℚ)).1 ≤ 1 :=
  claim_C1.2.2.2.2 (0, 0)
    ⟨0, 1 / 2, 1 / 2, by norm_num, by norm_num, by norm_num, by norm_num,
      by norm_num, by norm_num⟩
    ⟨1 / 2, 1 / 2, 0, by norm_num, by norm_num, by norm_num, by norm_num,
      by norm_num, by norm_num⟩

/-- C2: every `draw(texture)` call issues exactly the seven GL commands of
`Context::draw` in order — activate the context's program and vertex array,
bind the context's vertex buffer, bind the texture to a texture unit, write
the resolved sampler uniform selecting that unit, and finish with exactly one
draw invocation of 4 vertices as a triangle strip. -/
theorem claim_C2 (ctx : Context) (tex : Nat) :
    ctx.draw tex =
      [ .useProgram ctx.program,
        .bindVertexArray ctx.vertex_array,
        .bindBuffer gl.ARRAY_BUFFER ctx.vertex_buffer,
        .activeTexture gl.TEXTURE0,
        .bindTexture gl.TEXTURE_RECTANGLE tex,
        .uniform1i ctx.texture_uniform 0,
        .drawArrays gl.TRIANGLE_STRIP 0 4 ] ∧
    (ctx.draw tex).countP (fun c => isDrawCall c) = 1 ∧
    (ctx.draw tex).getLast? = some (.drawArrays gl.TRIANGLE_STRIP 0 4) :=
  ⟨rfl, by simp [Context.draw, List.countP, List.countP.go, isDrawCall],
    by simp [Context.draw]⟩

/-- C3: `Context::new` configures the vertex layout with the position
attribute reading 2 floats at byte offset 0 and the texture-coordinate
attribute reading 2 floats at byte offset 8 of each vertex record, both with
per-vertex stride `size_of::<Vertex>() = 16` bytes (4 floats), and enables
both attribute arrays. -/
theorem claim_C3 (env : GLEnv) :
    GLCmd.vertexAttribPointer (toGLuint env.positionAttribute) 2 gl.FLOAT false
      sizeOfVertex 0 ∈ (Context.new env).2 ∧
    GLCmd.vertexAttribPointer (toGLuint env.texCoordAttribute) 2 gl.FLOAT false
      sizeOfVertex 8 ∈ (Context.new env).2 ∧
    GLCmd.enableVertexAttribArray (toGLuint env.positionAttribute) ∈
      (Context.new env).2 ∧
    GLCmd.enableVertexAttribArray (toGLuint env.texCoordAttribute) ∈
      (Context.new env).2 ∧
    sizeOfVertex = 16 ∧ sizeOfVertex = 4 * sizeOfF32 := by
  refine ⟨?_, ?_, ?_, ?_, rfl, rfl⟩ <;> simp [Context.new, sizeOfVertex, sizeOfF32]

/-- C4: destruction issues exactly the five delete commands of
`impl Drop for Context`, one for each owned handle — vertex buffer, vertex
array, program, fragment shader, vertex shader — and nothing else (all five
trace entries are delete commands). -/
theorem claim_C4 (ctx : Context) :
    ctx.drop =
      [ .deleteBuffers 1 ctx.vertex_buffer,
        .deleteVertexArrays 1 ctx.vertex_array,
        .deleteProgram ctx.program,
        .deleteShader ctx.fragment_shader,
        .deleteShader ctx.vertex_shader ] ∧
    ctx.drop.length = 5 ∧
    ctx.drop.countP (fun c => isDeleteCmd c) = 5 :=
  ⟨rfl, rfl, by simp [Context.drop, List.countP, List.countP.go, isDeleteCmd]⟩

/-- C5: `Context::new` uploads buffer contents exactly once — the single
`BufferData` call carrying the 4 quad vertices (`size_of::<Vertex>() * 4`
bytes, `STATIC_DRAW`) — and `draw` issues no buffer-content write at all.
`Context::draw` takes the context immutably (`&self`); in the embedding it
is a function of the context producing only a command trace, so no stored
handle changes. -/
theorem claim_C5 (env : GLEnv) (ctx : Context) (tex : Nat) :
    ((Context.new env).2.countP (fun c => writesBufferData c)) = 1 ∧
    GLCmd.bufferData gl.ARRAY_BUFFER (sizeOfVertex * 4) VERTICES gl.STATIC_DRAW ∈
      (Context.new env).2 ∧
    ((ctx.draw tex).countP (fun c => writesBufferData c)) = 0 :=
  ⟨by simp [Context.new, List.countP, List.countP.go, writesBufferData],
   by simp [Context.new],
   by simp [Context.draw, List.countP, List.countP.go, writesBufferData]⟩

/-- C6: `Context::new` performs no shader-compile or program-link status
query (no `glGetShaderiv`/`glGetProgramiv` appears in its trace), and the
trace is the same fixed 23-command sequence for every driver outcome: after
the two `CompileShader` calls and `LinkProgram` it proceeds unconditionally
to attribute/uniform lookup and buffer setup, so a failed compile or link is
never detected or signaled. -/
theorem claim_C6 (env : GLEnv) :
    ((Context.new env).2.countP (fun c => isStatusCheck c)) = 0 ∧
    (Context.new env).2 =
      [ .createShader gl.VERTEX_SHADER env.vertexShaderId,
        .createShader gl.FRAGMENT_SHADER env.fragmentShaderId,
        .shaderSource env.vertexShaderId 1 VERTEX_SHADER VERTEX_SHADER.length,
        .shaderSource env.fragmentShaderId 1 FRAGMENT_SHADER FRAGMENT_SHADER.length,
        .compileShader env.vertexShaderId,
        .compileShader env.fragmentShaderId,
        .createProgram env.programId,
        .attachShader env.programId env.vertexShaderId,
        .attachShader env.programId env.fragmentShaderId,
        .linkProgram env.programId,
        .useProgram env.programId,
        .getAttribLocation env.programId "aPosition" env.positionAttribute,
        .getAttribLocation env.programId "aTexCoord" env.texCoordAttribute,
        .getUniformLocation env.programId "uTexture" env.textureUniformLoc,
        .genVertexArrays 1 env.vertexArrayId,
        .bindVertexArray env.vertexArrayId,
        .genBuffers 1 env.vertexBufferId,
        .bindBuffer gl.ARRAY_BUFFER env.vertexBufferId,
        .bufferData gl.ARRAY_BUFFER (sizeOfVertex * 4) VERTICES gl.STATIC_DRAW,
        .vertexAttribPointer (toGLuint env.positionAttribute) 2 gl.FLOAT false
          sizeOfVertex 0,
        .vertexAttribPointer (toGLuint env.texCoordAttribute) 2 gl.FLOAT false
          sizeOfVertex 8,
        .enableVertexAttribArray (toGLuint env.positionAttribute),
        .enableVertexAttribArray (toGLuint env.texCoordAttribute) ] :=
  ⟨by simp [Context.new, List.countP, List.countP.go, isStatusCheck], rfl⟩

/-- C7: `draw` has no failure path: it is a total function of the context and
the texture handle.  For every handle value — valid or not — it yields the
complete 7-command trace ending in the draw invocation, never an error value
(the Rust signature returns `()`, and the embedding returns a plain trace,
not an `Option`/`Except`). -/
theorem claim_C7 (ctx : Context) (tex : Nat) :
    (ctx.draw tex).length = 7 ∧
    (ctx.draw tex).getLast? = some (.drawArrays gl.TRIANGLE_STRIP 0 4) ∧
    GLCmd.bindTexture gl.TEXTURE_RECTANGLE tex ∈ ctx.draw tex :=
  ⟨rfl, by simp [Context.draw], by simp [Context.draw]⟩

/-- C8: running `draw`'s command trace from an arbitrary ambient binding
state always drives every piece of state `draw` depends on — current program,
bound vertex array, bound array buffer, active texture unit, the rectangle
texture bound on unit 0, and the sampler uniform of the context's program —
to the same values, determined only by the context and the texture argument;
hence two `draw` calls with the same context and texture have identical
traces and identical effect on that state regardless of unrelated rendering
in between. -/
theorem claim_C8 (ctx : Context) (tex : Nat) (s₁ s₂ : GLState) :
    drawRelevantState ctx (applyTrace s₁ (ctx.draw tex)) =
      (ctx.program, ctx.vertex_array, ctx.vertex_buffer, gl.TEXTURE0, tex, 0) ∧
    drawRelevantState ctx (applyTrace s₁ (ctx.draw tex)) =
      drawRelevantState ctx (applyTrace s₂ (ctx.draw tex)) ∧
    ctx.draw tex = ctx.draw tex := by
  have h : ∀ s : GLState, drawRelevantState ctx (applyTrace s (ctx.draw tex)) =
      (ctx.program, ctx.vertex_array, ctx.vertex_buffer, gl.TEXTURE0, tex, 0) := by
    intro s
    simp [Context.draw, applyTrace, applyCmd, drawRelevantState]
  exact ⟨h s₁, (h s₁).trans (h s₂).symm, rfl⟩

/-- C9: the embedded fragment stage samples the rectangle texture at the
interpolated coordinate multiplied componentwise by the texture's own pixel
dimensions; hence for any texture size, coordinates in `[0,1]×[0,1]` produce
sample positions spanning exactly `[0,W]×[0,H]` — the one fixed shader
(`fragmentMain` is a single function, quantified over every texture) covers
every texture size with no recompilation. -/
theorem claim_C9 (uTexture : RectTexture) (u v : ℚ) :
    fragmentMain uTexture (u, v) =
      uTexture.sample (u * (uTexture.width : ℚ)) (v * (uTexture.height : ℚ)) ∧
    (0 ≤ u → u ≤ 1 → 0 ≤ v → v ≤ 1 →
      0 ≤ u * (uTexture.width : ℚ) ∧ u * (uTexture.width : ℚ) ≤ (uTexture.width : ℚ) ∧
      0 ≤ v * (uTexture.height : ℚ) ∧ v * (uTexture.height : ℚ) ≤ (uTexture.height : ℚ)) := by
  refine ⟨rfl, fun hu0 hu1 hv0 hv1 => ?_⟩
  have hw : (0 : ℚ) ≤ (uTexture.width : ℚ) := Nat.cast_nonneg _
  have hh : (0 : ℚ) ≤ (uTexture.height : ℚ) := Nat.cast_nonneg _
  exact ⟨mul_nonneg hu0 hw, mul_le_of_le_one_left hw hu1,
    mul_nonneg hv0 hh, mul_le_of_le_one_left hh hv1⟩

/-- Witness for C9: a 640×480 texture sampled at texture coordinate
`(1/2, 1/2)` — the scaled sample position lands inside `[0,640]×[0,480]`. -/
theorem claim_C9_witness :
    0 ≤ (1 : ℚ) / 2 * ((640 : ℕ) : ℚ) ∧
    (1 : ℚ) / 2 * ((640 : ℕ) : ℚ) ≤ ((640 : ℕ) : ℚ) ∧
    0 ≤ (1 : ℚ) / 2 * ((480 : ℕ) : ℚ) ∧
    (1 : ℚ) / 2 * ((480 : ℕ) : ℚ) ≤ ((480 : ℕ) : ℚ) :=
  (claim_C9 ⟨640, 480, fun _ _ => (0, 0, 0, 0)⟩ (1 / 2) (1 / 2)).2
    (by norm_num) (by norm_num) (by norm_num) (by norm_num)

/-- C10: every `draw` call activates texture unit 0 (`TEXTURE0`), binds the
supplied handle under the `TEXTURE_RECTANGLE` target and never under
`TEXTURE_2D`, and writes the constant 0 — the index of the activated unit,
`unitIndex TEXTURE0` — to the resolved sampler uniform, matching the
`sampler2DRect` sampler that the embedded fragment shader declares. -/
theorem claim_C10 (ctx : Context) (tex : Nat) :
    GLCmd.activeTexture gl.TEXTURE0 ∈ ctx.draw tex ∧
    GLCmd.bindTexture gl.TEXTURE_RECTANGLE tex ∈ ctx.draw tex ∧
    (ctx.draw tex).countP (fun c => bindsTexture2D c) = 0 ∧
    GLCmd.uniform1i ctx.texture_uniform ((gl.unitIndex gl.TEXTURE0 : Nat) : Int) ∈
      ctx.draw tex ∧
    gl.unitIndex gl.TEXTURE0 = 0 ∧
    declaresRectSampler FRAGMENT_SHADER = true := by
  refine ⟨by simp [Context.draw], by simp [Context.draw], ?_, ?_, rfl, by decide⟩
  · simp [Context.draw, List.countP, List.countP.go, bindsTexture2D, gl.TEXTURE_RECTANGLE,
      gl.TEXTURE_2D]
  · simp [Context.draw, gl.unitIndex, gl.TEXTURE0]
